import Mathlib

/-!
# Verification of the `newsie` news-triage pipeline

Shallow embedding of the algorithmic core of the repository
(`news_collector.py`, `fact_checker.py`, `bill_watcher.py`) together with
proofs and refutations of the frozen specification claims.

Conventions of the embedding:
* Python strings are Lean `String`s; `str.lower()` maps `Char.toLower`
  over the characters (the keyword tables are ASCII, where the two agree).
* Python `in` on strings is substring containment (`containsSub`).
* Python floats are modelled as `ℚ`.  All scores and thresholds in the
  source are small dyadic/decimal constants and the compared ratios have
  tiny denominators, so exact rational comparison agrees with the
  source's float comparison.
* A pandas `DataFrame` of articles is a list of rows; each row carries
  its pandas index label (`label` field) because the source mixes
  label-based iteration (`iterrows`) with positional access (`iloc`).
* `re` patterns are embedded via a small backtracking matcher (`RE`)
  with Python's leftmost / first-alternative / greedy semantics.
-/

/-! ## String primitives -/

/-- Python `str.lower()` (ASCII; the repository's tables are ASCII). -/
def pyLower (s : String) : String := String.mk (s.data.map Char.toLower)

/-- Drop leading whitespace from a character list. -/
def dropWS (l : List Char) : List Char := l.dropWhile Char.isWhitespace

/-- Python `str.strip()`: remove leading and trailing whitespace. -/
def pyStrip (s : String) : String :=
  String.mk ((dropWS (dropWS s.data).reverse).reverse)

/-- Substring test: does `p` occur contiguously inside `s`?
Python's `p in s` on strings. -/
def containsSub (s p : List Char) : Bool :=
  match s with
  | [] => p.isEmpty
  | _ :: t => p.isPrefixOf s || containsSub t p

/-- Python `str.split()` with no argument: split on whitespace runs,
discarding empty pieces. -/
def pyWords : List Char → List Char → List (List Char)
  | [], acc => if acc.isEmpty then [] else [acc.reverse]
  | c :: cs, acc =>
    if c.isWhitespace then
      if acc.isEmpty then pyWords cs [] else acc.reverse :: pyWords cs []
    else pyWords cs (c :: acc)

/-- The set of whitespace-separated words of a string (a Python `set`). -/
def wordFinset (s : String) : Finset String :=
  ((pyWords s.data []).map String.mk).toFinset

theorem containsSub_infix_iff (s p : List Char) :
    containsSub s p = true ↔ p <:+: s := by
  induction s with
  | nil =>
    simp only [containsSub, List.isEmpty_iff]
    constructor
    · rintro rfl; exact List.infix_rfl
    · intro h; exact List.eq_nil_of_infix_nil h
  | cons c t ih =>
    simp only [containsSub, Bool.or_eq_true, ih, List.isPrefixOf_iff_prefix]
    constructor
    · rintro (h | h)
      · exact h.isInfix
      · exact List.infix_cons h
    · intro h
      rcases h with ⟨l₁, l₂, he⟩
      match l₁, he with
      | [], he => exact Or.inl ⟨l₂, by simpa using he⟩
      | a :: l₁, he =>
        refine Or.inr ⟨l₁, l₂, ?_⟩
        simpa using congrArg List.tail he

theorem containsSub_append_right (s r p : List Char)
    (h : containsSub s p = true) : containsSub (s ++ r) p = true := by
  rw [containsSub_infix_iff] at h ⊢
  exact h.trans (s.prefix_append r).isInfix

theorem containsSub_suffix (s p : List Char) (h : p <:+ s) :
    containsSub s p = true := by
  rw [containsSub_infix_iff]; exact h.isInfix

/-! ## A small backtracking regex engine

Embeds the `re` patterns used by the repository.  Semantics follow
CPython `re`: leftmost match wins; alternatives are tried left to right;
quantifiers are greedy with backtracking; `\b` is a zero-width word
boundary.  Each pattern used by the source has at most one capturing
group, modelled as a `(pre, grp, post)` split of the pattern. -/

/-- Python word character (`\w` for ASCII text): alphanumeric or `_`. -/
def isWordChar (c : Char) : Bool := c.isAlphanum || c == '_'

/-- Regular-expression syntax used by the repository's patterns. -/
inductive RE where
  | eps
  | cls (p : Char → Bool)
  | seq (r s : RE)
  | alt (r s : RE)
  | opt (r : RE)
  | star (r : RE)
  | wordB
deriving Inhabited

/-- Literal character. -/
def RE.chr (c : Char) : RE := RE.cls (fun d => d == c)

/-- Literal string. -/
def RE.str (s : String) : RE := s.data.foldr (fun c r => RE.seq (RE.chr c) r) RE.eps

/-- `r+` (greedy). -/
def RE.plus (r : RE) : RE := RE.seq r (RE.star r)

/-- `r{0,n}` (greedy: longer repetitions are tried first). -/
def RE.upto : Nat → RE → RE
  | 0, _ => RE.eps
  | n + 1, r => RE.opt (RE.seq r (RE.upto n r))

/-- `r{m,n}` (greedy). -/
def RE.rep (r : RE) (m n : Nat) : RE :=
  (List.replicate m r).foldr RE.seq (RE.upto (n - m) r)

/-- Word-boundary test between the previous character (`none` at the
start of the text) and the head of the remaining text. -/
def atBoundary (prev : Option Char) (s : List Char) : Bool :=
  (match prev with | none => false | some c => isWordChar c)
    != (match s with | [] => false | c :: _ => isWordChar c)

/-- Backtracking matcher in continuation style.  `mre fuel r prev s k`
tries to match `r` at the start of `s` (with `prev` the character just
before `s`, for `\b`), passing the rest of the text to `k`; the first
success in Python's priority order wins.  `fuel` bounds the recursion
depth; every quantified subpattern of the embedded regexes consumes at
least one character, so `chars + pattern size` many steps suffice. -/
def mre {α : Type} : Nat → RE → Option Char → List Char →
    (Option Char → List Char → Option α) → Option α
  | 0, _, _, _, _ => none
  | _ + 1, RE.eps, prev, s, k => k prev s
  | _ + 1, RE.cls p, _, s, k =>
    match s with
    | [] => none
    | c :: t => if p c then k (some c) t else none
  | fuel + 1, RE.seq r₁ r₂, prev, s, k =>
    mre fuel r₁ prev s (fun p₂ s₂ => mre fuel r₂ p₂ s₂ k)
  | fuel + 1, RE.alt r₁ r₂, prev, s, k =>
    (mre fuel r₁ prev s k).orElse (fun _ => mre fuel r₂ prev s k)
  | fuel + 1, RE.opt r, prev, s, k =>
    (mre fuel r prev s k).orElse (fun _ => k prev s)
  | fuel + 1, RE.star r, prev, s, k =>
    (mre fuel r prev s (fun p₂ s₂ =>
      if s₂.length < s.length then mre fuel (RE.star r) p₂ s₂ k
      else none)).orElse (fun _ => k prev s)
  | _ + 1, RE.wordB, prev, s, k =>
    if atBoundary prev s then k prev s else none

/-- Fuel that is always sufficient for the embedded patterns. -/
def reFuel (s : List Char) : Nat := (s.length + 1) * 64 + 64

/-- Try to match `(pre, grp, post)` anchored at the current position;
on success return the text captured by `grp`, the last character of the
whole match, and the remaining text. -/
def matchHere (pre grp post : RE) (prev : Option Char) (s : List Char) :
    Option (String × Option Char × List Char) :=
  mre (reFuel s) pre prev s (fun p₁ s₁ =>
    mre (reFuel s) grp p₁ s₁ (fun p₂ s₂ =>
      mre (reFuel s) post p₂ s₂ (fun p₃ s₃ =>
        some (String.mk (s₁.take (s₁.length - s₂.length)), p₃, s₃))))

/-- Leftmost match: scan positions left to right. -/
def scanRE (pre grp post : RE) : Option Char → List Char →
    Option (String × Option Char × List Char)
  | prev, s =>
    match matchHere pre grp post prev s with
    | some r => some r
    | none =>
      match s with
      | [] => none
      | c :: t => scanRE pre grp post (some c) t

/-- All non-overlapping matches, left to right (`re.findall`; each
embedded pattern matches at least one character, and the `if` guard
makes that explicit). -/
def findallAux (pre grp post : RE) : Nat → Option Char → List Char → List String
  | 0, _, _ => []
  | n + 1, prev, s =>
    match scanRE pre grp post prev s with
    | none => []
    | some (cap, p₃, s₃) =>
      cap :: (if s₃.length < s.length then findallAux pre grp post n p₃ s₃ else [])

/-- `re.findall(pattern, text)` for a single-group pattern. -/
def findall (pre grp post : RE) (t : String) : List String :=
  findallAux pre grp post (t.data.length + 1) none t.data

/-- First match of a pattern (`re.findall(...)[0]` when non-empty). -/
def findFirst (pre grp post : RE) (t : String) : Option String :=
  (scanRE pre grp post none t.data).map (fun r => r.1)

/-- Chain a list of regexes in sequence. -/
def RE.seqs (l : List RE) : RE := l.foldr RE.seq RE.eps

/-! ## `bill_watcher.py` -/

/-- Keywords that indicate bill-related news (`BILL_KEYWORDS`). -/
def BILL_KEYWORDS : List String :=
  ["bill", "legislation", "law", "act", "resolution", "amendment",
   "passed", "approved", "voted", "house", "senate", "congress",
   "legislative", "legislature", "federal", "government"]

/-- Keywords that indicate which branch passed it (`BRANCH_KEYWORDS`,
in dict insertion order). -/
def BRANCH_KEYWORDS : List (String × List String) :=
  [("house", ["house of representatives", "house passed", "house approved", "house voted"]),
   ("senate", ["senate passed", "senate approved", "senate voted", "senators"]),
   ("both", ["congress passed", "congress approved", "both chambers", "house and senate"])]

/-- Sector keyword tables (`SECTOR_KEYWORDS`, in dict insertion order). -/
def SECTOR_KEYWORDS : List (String × List String) :=
  [("AI/Technology",
    ["artificial intelligence", "AI", "machine learning", "automation", "robotics",
     "semiconductor", "chip", "computing", "software", "digital", "cyber"]),
   ("Renewable Energy",
    ["renewable energy", "solar", "wind", "clean energy", "green energy",
     "electric vehicle", "EV", "battery", "sustainability", "climate"]),
   ("Healthcare",
    ["healthcare", "medical", "pharmaceutical", "drug", "treatment",
     "insurance", "medicare", "medicaid", "hospital", "doctor"]),
   ("Infrastructure",
    ["infrastructure", "construction", "roads", "bridges", "transportation",
     "highway", "railway", "airport", "port", "building"]),
   ("Finance",
    ["banking", "finance", "financial", "regulation", "SEC", "federal reserve",
     "tax", "revenue", "budget", "spending", "deficit"]),
   ("Defense",
    ["defense", "military", "weapons", "national security", "veterans",
     "armed forces", "defense spending", "military budget"]),
   ("Education",
    ["education", "school", "university", "college", "student loan",
     "federal aid", "scholarship", "research funding"])]

/-- Company tickers by sector (`COMPANIES_BY_SECTOR`). -/
def COMPANIES_BY_SECTOR : List (String × List String) :=
  [("AI/Technology",
    ["NVDA", "MSFT", "GOOGL", "META", "AAPL", "AMD", "INTC", "TSM",
     "ORCL", "CRM", "ADBE", "NFLX", "AMZN", "TSLA"]),
   ("Renewable Energy",
    ["TSLA", "ENPH", "PLUG", "SEDG", "RUN", "SPWR", "FSLR", "NEE",
     "GE", "GEVO", "BLDP", "BE", "NIO", "XPEV", "LI"]),
   ("Healthcare",
    ["JNJ", "PFE", "UNH", "ABBV", "MRK", "TMO", "ABT", "DHR",
     "LLY", "BMY", "AMGN", "GILD", "CVS", "ANTM"]),
   ("Infrastructure",
    ["CAT", "DE", "CEMEX", "VMC", "MLM", "URI", "TEX", "FLR",
     "J", "ACM", "PWR", "EME", "MTZ"]),
   ("Finance",
    ["JPM", "BAC", "WFC", "GS", "MS", "C", "USB", "PNC",
     "TFC", "COF", "AXP", "BLK", "SCHW", "SPGI"]),
   ("Defense",
    ["LMT", "RTX", "BA", "GD", "NOC", "LHX", "TDG", "AJRD",
     "KTOS", "AIR", "TDG", "HII", "LDOS"]),
   ("Education",
    ["APEI", "LOPE", "STRA", "ZVO", "LAUR", "EDU", "TAL", "GHC"])]

/-- Character classes for the bill/fact patterns. -/
def reDigit : RE := RE.cls Char.isDigit

/-- `\s` (whitespace). -/
def reWS : RE := RE.cls Char.isWhitespace

/-- `[A-Z]` under `re.IGNORECASE` (ASCII letter). -/
def reAlphaI : RE := RE.cls Char.isAlpha

/-- The four `bill_patterns`, each a single capturing group, with
`re.IGNORECASE`.  In source order: `([A-Z]\.R\.\s+\d+)`,
`([A-Z]\.\s+\d+)`, `([A-Z][A-Z]\d+)`, `([A-Z][a-z]+\.?\s+\d+)`. -/
def billNumberPatterns : List RE :=
  [RE.seqs [reAlphaI, RE.chr '.', RE.cls (fun c => c == 'R' || c == 'r'), RE.chr '.',
            RE.plus reWS, RE.plus reDigit],
   RE.seqs [reAlphaI, RE.chr '.', RE.plus reWS, RE.plus reDigit],
   RE.seqs [reAlphaI, reAlphaI, RE.plus reDigit],
   RE.seqs [reAlphaI, RE.plus reAlphaI, RE.opt (RE.chr '.'), RE.plus reWS, RE.plus reDigit]]

/-- The four `name_patterns` (case-sensitive).  In source order:
`"([^"]+)"`, `([A-Z][A-Za-z\s]+Act)`, `([A-Z][A-Za-z\s]+Bill)`,
`([A-Z][A-Za-z\s]+Law)`.  Only the first has surrounding context
outside its capturing group. -/
def billNamePatterns : List (RE × RE × RE) :=
  [(RE.chr '"', RE.plus (RE.cls (fun c => c != '"')), RE.chr '"'),
   (RE.eps, RE.seqs [RE.cls Char.isUpper,
      RE.plus (RE.cls (fun c => c.isAlpha || c.isWhitespace)), RE.str "Act"], RE.eps),
   (RE.eps, RE.seqs [RE.cls Char.isUpper,
      RE.plus (RE.cls (fun c => c.isAlpha || c.isWhitespace)), RE.str "Bill"], RE.eps),
   (RE.eps, RE.seqs [RE.cls Char.isUpper,
      RE.plus (RE.cls (fun c => c.isAlpha || c.isWhitespace)), RE.str "Law"], RE.eps)]

/-- First pattern with a match wins; its first match is used
(the `for pattern in bill_patterns: ... break` loop). -/
def firstPatternMatch (pats : List (RE × RE × RE)) (t : String) : Option String :=
  match pats with
  | [] => none
  | (pre, grp, post) :: rest =>
    match findFirst pre grp post t with
    | some m => some m
    | none => firstPatternMatch rest t

/-- Python `str.split(sep)` for a one-character separator (keeps empty
pieces, exactly like Python). -/
def splitOnChar (sep : Char) : List Char → List Char → List (List Char)
  | [], acc => [acc.reverse]
  | c :: cs, acc =>
    if c = sep then acc.reverse :: splitOnChar sep cs []
    else splitOnChar sep cs (c :: acc)

/-- Keywords that explain what a bill does (`explanation_keywords`). -/
def explanation_keywords : List String :=
  ["funds", "funding", "allocates", "provides", "establishes",
   "regulates", "regulations", "requires", "mandates", "authorizes",
   "creates", "expands", "reduces", "increases", "decreases"]

/-- `generate_bill_explanation`: first sentence (split on `'.'`)
containing an explanation keyword, stripped, truncated to 200
characters with an ellipsis; a fixed fallback otherwise. -/
def generate_bill_explanation (article_text : String) : String :=
  let sentences := (splitOnChar '.' article_text.data []).map String.mk
  let relevant := sentences.filter (fun s =>
    explanation_keywords.any (fun kw => containsSub (pyLower s).data kw.data))
  match relevant with
  | [] => "Bill details and funding information available from official sources."
  | s :: _ => String.mk ((pyStrip s).data.take 200) ++ "..."

/-- `identify_affected_sectors`: every sector with a keyword hit in the
lower-cased text (union, not first match). -/
def identify_affected_sectors (article_text : String) : List String :=
  let text_lower := pyLower article_text
  (SECTOR_KEYWORDS.filter (fun sk =>
    sk.2.any (fun kw => containsSub text_lower.data kw.data))).map (fun sk => sk.1)

/-- Result record of `extract_bill_info` (the `bill_info` dict). -/
structure BillInfo where
  bill_name : Option String
  bill_number : Option String
  branch_passed : Option String
  explanation : Option String
  sectors_affected : List String
deriving DecidableEq, Repr

/-- `extract_bill_info`: gate on `BILL_KEYWORDS`, then extract bill
number, branch and name; a result is returned only when a bill number
or a bill name was found. -/
def extract_bill_info (article_text : String) : Option BillInfo :=
  if article_text = "" then none
  else
    let text_lower := pyLower article_text
    if !(BILL_KEYWORDS.any (fun kw => containsSub text_lower.data kw.data)) then none
    else
      let number := firstPatternMatch
        (billNumberPatterns.map (fun g => (RE.eps, g, RE.eps))) article_text
      let branch := (BRANCH_KEYWORDS.find? (fun bk =>
        bk.2.any (fun kw => containsSub text_lower.data kw.data))).map (fun bk => bk.1)
      let name := firstPatternMatch billNamePatterns article_text
      if number.isSome || name.isSome then
        some { bill_name := name, bill_number := number, branch_passed := branch,
               explanation := some (generate_bill_explanation article_text),
               sectors_affected := identify_affected_sectors article_text }
      else none

/-- `get_affected_companies`: union of the affected sectors' company
lists, de-duplicated and truncated to `max_companies`.  The source
de-duplicates via a Python `set`, whose iteration order is unspecified;
the model keeps the first occurrence of each ticker in list order. -/
def get_affected_companies (sectors : List String) (max_companies : Nat) : List String :=
  let companies := sectors.foldl (fun acc sector =>
    match COMPANIES_BY_SECTOR.find? (fun cs => cs.1 == sector) with
    | some cs => acc ++ cs.2
    | none => acc) []
  companies.eraseDups.take max_companies

/-! ## `fact_checker.py` -/

/-- `FACT_KEYWORDS`. -/
def FACT_KEYWORDS : List String :=
  ["announced", "reported", "said", "confirmed", "revealed", "stated",
   "according to", "sources say", "officials say", "experts say",
   "study shows", "research indicates", "data shows", "statistics show"]

/-- `UNVERIFIED_KEYWORDS`. -/
def UNVERIFIED_KEYWORDS : List String :=
  ["allegedly", "reportedly", "rumored", "speculation", "unconfirmed",
   "anonymous sources", "unnamed sources", "sources familiar with",
   "may", "might", "could", "possibly", "potentially"]

/-- Slash-or-dash character class of the date pattern. -/
def reSlashDash : RE := RE.cls (fun c => c == '/' || c == '-')

/-- Date pattern: one or two digits, slash or dash, one or two digits,
slash or dash, two to four digits, word-bounded; or a bare word-bounded
four-digit year. -/
def datePattern : RE :=
  RE.alt
    (RE.seqs [RE.wordB, RE.rep reDigit 1 2, reSlashDash, RE.rep reDigit 1 2,
              reSlashDash, RE.rep reDigit 2 4, RE.wordB])
    (RE.seqs [RE.wordB, RE.rep reDigit 4 4, RE.wordB])

/-- Number pattern
`\b\d+(?:\.\d+)?%\b|\$\d+(?:,\d{3})*(?:\.\d{2})?\b|\b\d+(?:\.\d+)?\s*(?:million|billion|thousand)\b`. -/
def numberPattern : RE :=
  RE.alt
    (RE.seqs [RE.wordB, RE.plus reDigit, RE.opt (RE.seq (RE.chr '.') (RE.plus reDigit)),
              RE.chr '%', RE.wordB])
    (RE.alt
      (RE.seqs [RE.chr '$', RE.plus reDigit,
                RE.star (RE.seqs [RE.chr ',', reDigit, reDigit, reDigit]),
                RE.opt (RE.seqs [RE.chr '.', reDigit, reDigit]), RE.wordB])
      (RE.seqs [RE.wordB, RE.plus reDigit, RE.opt (RE.seq (RE.chr '.') (RE.plus reDigit)),
                RE.star reWS,
                RE.alt (RE.str "million") (RE.alt (RE.str "billion") (RE.str "thousand")),
                RE.wordB]))

/-- Name pattern `\b[A-Z][a-z]+\s+[A-Z][a-z]+\b`. -/
def namePattern : RE :=
  RE.seqs [RE.wordB, RE.cls Char.isUpper, RE.plus (RE.cls Char.isLower), RE.plus reWS,
           RE.cls Char.isUpper, RE.plus (RE.cls Char.isLower), RE.wordB]

/-- Organization pattern
`\b[A-Z][A-Z\s&]+(?:Corp|Inc|LLC|Ltd|Company|Organization|Foundation)\b`. -/
def orgPattern : RE :=
  RE.seqs [RE.wordB, RE.cls Char.isUpper,
           RE.plus (RE.cls (fun c => c.isUpper || c.isWhitespace || c == '&')),
           ["Corp", "Inc", "LLC", "Ltd", "Company", "Organization",
            "Foundation"].foldr (fun w r => RE.alt (RE.str w) r) (RE.str "Foundation"),
           RE.wordB]

/-- The `facts` dict of `extract_facts`. -/
structure Facts where
  dates : List String
  numbers : List String
  names : List String
  organizations : List String
  locations : List String
deriving DecidableEq, Repr

/-- `extract_facts`: pattern-extract dates, numbers, names and
organizations from raw text (`locations` is declared but never filled). -/
def extract_facts (text : String) : Facts :=
  if text = "" then ⟨[], [], [], [], []⟩
  else
    { dates := findall RE.eps datePattern RE.eps text
      numbers := findall RE.eps numberPattern RE.eps text
      names := findall RE.eps namePattern RE.eps text
      organizations := findall RE.eps orgPattern RE.eps text
      locations := [] }

/-- `check_fact_consistency`: with at least two fact sets, the group is
inconsistent exactly when the concatenated date mentions contain more
than one distinct value and more than one mention.  The numbers are
also collected and compared in the source, but that branch is `pass`
(dead); the source renders the conflicting-date set in the message,
whose order Python leaves unspecified — the model renders the distinct
dates in first-occurrence order.  Only emptiness of the result is ever
consumed. -/
def check_fact_consistency (facts_list : List Facts) : List String :=
  if facts_list.length < 2 then []
  else
    let all_dates := facts_list.foldl (fun acc f => acc ++ f.dates) []
    if 1 < all_dates.eraseDups.length ∧ 1 < all_dates.length then
      ["Conflicting dates: " ++ String.intercalate ", " all_dates.eraseDups]
    else []

/-! ## `difflib.SequenceMatcher` (used by `find_similar_articles`)

Model of `SequenceMatcher(None, a, b).ratio()` for texts shorter than
200 characters (the *autojunk* heuristic of `difflib` only activates
for a second sequence of length ≥ 200; no junk predicate is passed by
the source, so junk handling is vacuous here and the post-search junk
extension loops of `find_longest_match` are no-ops). -/

/-- Character at `i` equals character at `j` (false out of range). -/
def chEq (a b : List Char) (i j : Nat) : Bool :=
  match a.get? i, b.get? j with
  | some x, some y => x == y
  | _, _ => false

/-- Length of the common run ending at `(i, j)`, clipped to the window
starting at `(alo, blo)` — the `j2len` dynamic program of
`find_longest_match`. -/
def matchRunW (a b : List Char) (alo blo : Nat) : Nat → Nat → Nat
  | 0, j => if chEq a b 0 j then 1 else 0
  | i + 1, j =>
    if chEq a b (i + 1) j then
      if i + 1 ≤ alo ∨ j ≤ blo then 1
      else matchRunW a b alo blo i (j - 1) + 1
    else 0

/-- `find_longest_match(alo, ahi, blo, bhi)`: the longest matching
block in the window, ties broken by the scan order of the source
(ascending `i`, then ascending `j`; the best is replaced only by a
strictly longer run).  Returns `(besti, bestj, bestsize)`. -/
def bestWindow (a b : List Char) (alo ahi blo bhi : Nat) : Nat × Nat × Nat :=
  (List.range' alo (ahi - alo)).foldl (fun best i =>
    (List.range' blo (bhi - blo)).foldl (fun best j =>
      let k := matchRunW a b alo blo i j
      if best.2.2 < k then (i + 1 - k, j + 1 - k, k) else best) best)
    (alo, blo, 0)

/-- Total size of all matching blocks (`get_matching_blocks`): recurse
on the windows to the left and right of the longest match.  `fuel`
bounds the recursion depth (each recursive window is strictly smaller,
so `|a| + |b| + 1` always suffices). -/
def matchSumF (a b : List Char) : Nat → Nat → Nat → Nat → Nat → Nat
  | 0, _, _, _, _ => 0
  | fuel + 1, alo, ahi, blo, bhi =>
    let t := bestWindow a b alo ahi blo bhi
    if t.2.2 = 0 then 0
    else matchSumF a b fuel alo t.1 blo t.2.1 + t.2.2 +
         matchSumF a b fuel (t.1 + t.2.2) ahi (t.2.1 + t.2.2) bhi

/-- `SequenceMatcher(None, a, b).ratio()`:
`2 * M / (len(a) + len(b))`, and `1.0` when both are empty. -/
def seqRatio (a b : String) : ℚ :=
  let la := a.data.length
  let lb := b.data.length
  if la + lb = 0 then 1
  else Rat.divInt (2 * (matchSumF a.data b.data (la + lb + 1) 0 la 0 lb) : ℤ) (la + lb : ℤ)

/-! ## `find_similar_articles` and `check_article_consistency`

A pandas `DataFrame` is modelled as a list of rows in positional
order, each row carrying its pandas index label.  `iterrows` yields
`(label, row)` pairs in positional order; `df.iloc[k]` is positional
access (out-of-range positional access raises in pandas and is not
modelled; every input considered here keeps labels within range). -/

/-- One row of the fact-checking `DataFrame`. -/
structure FRow where
  label : Nat
  headline : String := ""
  content : String := ""
  fact_check_status : String := ""
deriving DecidableEq, Repr, Inhabited

/-- Worker for `find_similar_articles`: outer `iterrows` loop with the
`processed` label set.  For an unprocessed seed row, the inner loop
gathers every other unprocessed row whose lower-cased headline has
`SequenceMatcher` ratio above the threshold `0.6` with the seed's. -/
def fsaGo (df : List FRow) : List FRow → List Nat → List (List Nat)
  | [], _ => []
  | r :: rest, processed =>
    if processed.contains r.label then fsaGo df rest processed
    else
      let sims := df.filter (fun p =>
        !((r.label :: processed).contains p.label) &&
          decide (mkRat 3 5 < seqRatio (pyLower r.headline) (pyLower p.headline)))
      let group := r.label :: sims.map (fun p => p.label)
      if 1 < group.length then group :: fsaGo df rest (processed ++ group)
      else fsaGo df rest (processed ++ group)

/-- `find_similar_articles(df, similarity_threshold=0.6)`: greedy
grouping of rows by headline similarity; groups are lists of row
*labels*; only groups with at least two members are returned. -/
def find_similar_articles (df : List FRow) : List (List Nat) := fsaGo df df []

/-- Default status written by `check_article_consistency`. -/
def statusFactChecked : String := "🔍 Fact-checked"

/-- Status written for flagged or unverified articles. -/
def statusUnverified : String := "⚠️ Unverified"

/-- The text a row contributes to fact extraction. -/
def rowText (r : FRow) : String := r.headline ++ " " ++ r.content

/-- `df.iloc[idx, status_col] = '⚠️ Unverified'` — positional write. -/
def setUnverified (d : List FRow) (idx : Nat) : List FRow :=
  match d.get? idx with
  | none => d
  | some r => d.set idx { r with fact_check_status := statusUnverified }

/-- `check_article_consistency`: set the default status, group similar
rows, and for every group whose extracted facts are inconsistent mark
each entry of the group as unverified.  Note that the source reads the
group members and writes their statuses through `df.iloc[idx]`, i.e.
*positionally*, although `idx` is a row *label* coming from
`iterrows`. -/
def check_article_consistency (df : List FRow) : List FRow :=
  match df with
  | [] => df
  | _ =>
    let df1 := df.map (fun r => { r with fact_check_status := statusFactChecked })
    let groups := find_similar_articles df1
    groups.foldl (fun d group =>
      if group.length < 2 then d
      else
        let group_facts := group.map (fun idx => extract_facts (rowText (d.getD idx default)))
        let inconsistencies := check_fact_consistency group_facts
        if inconsistencies.isEmpty then d
        else group.foldl (fun d2 idx => setUnverified d2 idx) d) df1

/-! ## `analyze_bill_impact` -/

/-- One row of the `DataFrame` reaching `analyze_bill_impact`
(again carrying its pandas index label). -/
structure BRow where
  label : Nat
  headline : String := ""
  content : String := ""
  category : String := ""
  bill_impact : Option String := none
deriving DecidableEq, Repr, Inhabited

/-- One entry of the `bill_impacts` list. -/
structure BillImpact where
  article_index : Nat
  headline : String
  bill_name : Option String
  bill_number : Option String
  branch_passed : Option String
  explanation : Option String
  sectors_affected : List String
  companies_affected : List String
deriving DecidableEq, Repr

/-- `df.iloc[idx, bill_impact_col] = '📋 Bill Impact'` — positional
write with the stored label. -/
def setBillImpact (d : List BRow) (idx : Nat) : List BRow :=
  match d.get? idx with
  | none => d
  | some r => d.set idx { r with bill_impact := some "📋 Bill Impact" }

/-- `analyze_bill_impact`: extract bill information from the
`Government/Policy` rows only, then reset the `bill_impact` column and
mark each found bill's row — positionally, through `df.iloc`, although
`article_index` is the row's label from `iterrows`. -/
def analyze_bill_impact (df : List BRow) : List BRow × List BillImpact :=
  match df with
  | [] => (df, [])
  | _ =>
    let gov := df.filter (fun r => r.category == "Government/Policy")
    if gov.isEmpty then (df, [])
    else
      let bill_impacts := gov.filterMap (fun r =>
        (extract_bill_info (r.headline ++ " " ++ r.content)).map (fun bi =>
          { article_index := r.label, headline := r.headline,
            bill_name := bi.bill_name, bill_number := bi.bill_number,
            branch_passed := bi.branch_passed, explanation := bi.explanation,
            sectors_affected := bi.sectors_affected,
            companies_affected := get_affected_companies bi.sectors_affected 10 }))
      let df1 := df.map (fun r => { r with bill_impact := none })
      let df2 := bill_impacts.foldl (fun d imp => setBillImpact d imp.article_index) df1
      (df2, bill_impacts)

/-! ## `news_collector.py` — deduplication -/

/-- A raw article entry (a Python dict; missing fields read as `''`). -/
structure Article where
  headline : String := ""
  description : String := ""
  content : String := ""
  url : String := ""
  source : String := ""
  published_at : String := ""
deriving DecidableEq, Repr, Inhabited

/-- The normalised headline used by `remove_duplicates`:
`article.get('headline', '').lower().strip()`. -/
def normHeadline (a : Article) : String := pyStrip (pyLower a.headline)

/-- `article.get('url', '').strip()`. -/
def normUrl (a : Article) : String := pyStrip a.url

/-- Word-set overlap ratio of two (already normalised) headlines:
`len(words1 & words2) / max(len(words1), len(words2))`.
This is the similarity measure of the Deduplicator. -/
def overlapRatio (h₁ h₂ : String) : ℚ :=
  Rat.divInt ((wordFinset h₁ ∩ wordFinset h₂).card : ℤ)
    (max (wordFinset h₁).card (wordFinset h₂).card : ℤ)

/-- The fuzzy-duplicate test of the inner loop: both headlines
non-empty and overlap strictly above `0.7`. -/
def isFuzzyDup (h he : String) : Bool :=
  h ≠ "" && he ≠ "" && decide (mkRat 7 10 < overlapRatio h he)

/-- Accumulator of `remove_duplicates`: the kept articles and the
`seen_headlines` / `seen_urls` sets. -/
structure DedupState where
  uniq : List Article
  seenH : List String
  seenU : List String

/-- One iteration of the `for article in articles` loop. -/
def dedupStep (st : DedupState) (a : Article) : DedupState :=
  if st.seenH.contains (normHeadline a) || st.seenU.contains (normUrl a) then st
  else if st.uniq.any (fun e => isFuzzyDup (normHeadline a) (normHeadline e)) then st
  else
    { uniq := st.uniq ++ [a]
      seenH := st.seenH ++ [normHeadline a]
      seenU := if normUrl a ≠ "" then st.seenU ++ [normUrl a] else st.seenU }

/-- `remove_duplicates`: drop exact headline/URL duplicates and
near-duplicate headlines, keeping first occurrences in order. -/
def remove_duplicates (articles : List Article) : List Article :=
  (articles.foldl dedupStep ⟨[], [], []⟩).uniq

/-! ## Deduplication invariants -/

/-- Two kept articles are never fuzzy duplicates of each other. -/
def NoFuzz (x y : Article) : Prop :=
  overlapRatio (normHeadline x) (normHeadline y) ≤ mkRat 7 10

theorem overlapRatio_comm (h₁ h₂ : String) :
    overlapRatio h₁ h₂ = overlapRatio h₂ h₁ := by
  unfold overlapRatio
  rw [Finset.inter_comm, max_comm]

theorem wordFinset_empty : wordFinset "" = ∅ := rfl

theorem overlapRatio_empty_left (h : String) : overlapRatio "" h = 0 := by
  unfold overlapRatio
  rw [wordFinset_empty]
  simp

theorem overlapRatio_le_of_not_fuzzy {h he : String}
    (hf : isFuzzyDup h he = false) : overlapRatio h he ≤ mkRat 7 10 := by
  by_contra hgt
  push_neg at hgt
  have hh : h ≠ "" := by
    rintro rfl; rw [overlapRatio_empty_left] at hgt
    exact absurd hgt (by decide)
  have hhe : he ≠ "" := by
    rintro rfl; rw [overlapRatio_comm, overlapRatio_empty_left] at hgt
    exact absurd hgt (by decide)
  have : isFuzzyDup h he = true := by
    unfold isFuzzyDup
    simp [hh, hhe, hgt]
  rw [this] at hf
  exact Bool.true_eq_false.mp hf

/-- The invariant of the `remove_duplicates` accumulator. -/
structure DedupInv (st : DedupState) : Prop where
  seenH_eq : st.seenH = st.uniq.map normHeadline
  seenU_eq : st.seenU = (st.uniq.map normUrl).filter (fun u => u ≠ "")
  seenH_nodup : st.seenH.Nodup
  seenU_nodup : st.seenU.Nodup
  pair : st.uniq.Pairwise NoFuzz

theorem dedupInv_init : DedupInv ⟨[], [], []⟩ :=
  ⟨rfl, rfl, List.nodup_nil, List.nodup_nil, List.Pairwise.nil⟩

theorem dedupInv_step (st : DedupState) (a : Article) (h : DedupInv st) :
    DedupInv (dedupStep st a) := by
  unfold dedupStep
  split
  · exact h
  · split
    · exact h
    · rename_i hseen hfuzz
      rw [Bool.or_eq_true, not_or] at hseen
      obtain ⟨hH, hU⟩ := hseen
      replace hH : normHeadline a ∉ st.seenH := by
        simpa using hH
      replace hU : normUrl a ∉ st.seenU := by
        simpa using hU
      refine ⟨?_, ?_, ?_, ?_, ?_⟩
      · simp [h.seenH_eq]
      · by_cases hu : normUrl a = "" <;>
          simp [h.seenU_eq, hu, List.filter_append]
      · simp only [List.nodup_append, List.nodup_singleton, List.disjoint_singleton]
        exact ⟨h.seenH_nodup, trivial, hH⟩
      · by_cases hu : normUrl a = ""
        · simpa [hu] using h.seenU_nodup
        · rw [if_pos hu]
          simp only [List.nodup_append, List.nodup_singleton, List.disjoint_singleton]
          exact ⟨h.seenU_nodup, trivial, hU⟩
      · rw [List.pairwise_append]
        refine ⟨h.pair, List.pairwise_singleton _ _, ?_⟩
        intro e he b hb
        have hb' : b = a := by simpa using hb
        have hnf : isFuzzyDup (normHeadline a) (normHeadline e) = false := by
          rw [Bool.eq_false_iff]
          intro hcontra
          exact hfuzz (List.any_eq_true.mpr ⟨e, he, hcontra⟩)
        subst hb'
        unfold NoFuzz
        rw [overlapRatio_comm]
        exact overlapRatio_le_of_not_fuzzy hnf

theorem dedupInv_foldl (l : List Article) (st : DedupState) (h : DedupInv st) :
    DedupInv (l.foldl dedupStep st) := by
  induction l generalizing st with
  | nil => exact h
  | cons a t ih => exact ih _ (dedupInv_step st a h)

theorem remove_duplicates_inv (l : List Article) :
    DedupInv (l.foldl dedupStep ⟨[], [], []⟩) :=
  dedupInv_foldl l _ dedupInv_init

theorem fuzzyDup_overlap {h he : String} (ht : isFuzzyDup h he = true) :
    mkRat 7 10 < overlapRatio h he := by
  unfold isFuzzyDup at ht
  simp only [Bool.and_eq_true, decide_eq_true_eq] at ht
  exact ht.2

/-- Running the deduplication loop over a list that is already free of
exact and fuzzy duplicates (relative to the already-kept prefix `u`)
keeps every article. -/
theorem dedup_foldl_frozen (rest : List Article) : ∀ u : List Article,
    ((u ++ rest).map normHeadline).Nodup →
    (((u ++ rest).map normUrl).filter (fun x => x ≠ "")).Nodup →
    (u ++ rest).Pairwise NoFuzz →
    (rest.foldl dedupStep
        ⟨u, u.map normHeadline, (u.map normUrl).filter (fun x => x ≠ "")⟩).uniq
      = u ++ rest := by
  induction rest with
  | nil => intro u _ _ _; simp
  | cons a rest ih =>
    intro u hN hU hP
    have hH : normHeadline a ∉ u.map normHeadline := by
      rw [List.map_append, List.nodup_append] at hN
      exact fun hmem => hN.2.2 hmem
        (List.mem_map_of_mem normHeadline (List.mem_cons_self a rest))
    have hUrl : normUrl a ≠ "" →
        normUrl a ∉ (u.map normUrl).filter (fun x => x ≠ "") := by
      intro hu hmem
      rw [List.map_append, List.filter_append, List.nodup_append] at hU
      refine hU.2.2 hmem ?_
      rw [List.mem_filter]
      exact ⟨List.mem_map_of_mem normUrl (List.mem_cons_self a rest), by simpa using hu⟩
    have hPair : ∀ e ∈ u, NoFuzz e a := by
      rw [List.pairwise_append] at hP
      exact fun e he => hP.2.2 e he a (List.mem_cons_self a rest)
    have hc1 : (List.contains (u.map normHeadline) (normHeadline a)
        || List.contains ((u.map normUrl).filter (fun x => x ≠ "")) (normUrl a)) = false := by
      rw [Bool.or_eq_false_iff]
      constructor
      · rw [Bool.eq_false_iff]
        intro hc
        exact hH (by simpa using hc)
      · rw [Bool.eq_false_iff]
        intro hc
        replace hc : normUrl a ∈ (u.map normUrl).filter (fun x => x ≠ "") := by
          simpa using hc
        have hne : normUrl a ≠ "" := by
          have := (List.mem_filter.mp hc).2
          simpa using this
        exact hUrl hne hc
    have hc2 : (u.any fun e => isFuzzyDup (normHeadline a) (normHeadline e)) = false := by
      rw [List.any_eq_false]
      intro e he ht
      have h1 := fuzzyDup_overlap ht
      have h2 := hPair e he
      unfold NoFuzz at h2
      rw [overlapRatio_comm] at h2
      exact absurd h1 (not_lt.mpr h2)
    have hstep : dedupStep
        ⟨u, u.map normHeadline, (u.map normUrl).filter (fun x => x ≠ "")⟩ a
        = ⟨u ++ [a], (u ++ [a]).map normHeadline,
           ((u ++ [a]).map normUrl).filter (fun x => x ≠ "")⟩ := by
      unfold dedupStep
      rw [if_neg (Bool.eq_false_iff.mp hc1), if_neg (Bool.eq_false_iff.mp hc2)]
      by_cases hu : normUrl a = "" <;>
        simp [hu, List.filter_append]
    rw [List.foldl_cons, hstep,
      ih (u ++ [a]) (by simpa [List.append_assoc] using hN)
        (by simpa [List.append_assoc] using hU)
        (by simpa [List.append_assoc] using hP)]
    simp

theorem remove_duplicates_headlines_nodup (l : List Article) :
    ((remove_duplicates l).map normHeadline).Nodup := by
  have h := remove_duplicates_inv l
  have hn := h.seenH_nodup
  rw [h.seenH_eq] at hn
  exact hn

theorem remove_duplicates_urls_nodup (l : List Article) :
    (((remove_duplicates l).map normUrl).filter (fun x => x ≠ "")).Nodup := by
  have h := remove_duplicates_inv l
  have hn := h.seenU_nodup
  rw [h.seenU_eq] at hn
  exact hn

theorem remove_duplicates_pairwise (l : List Article) :
    (remove_duplicates l).Pairwise NoFuzz :=
  (remove_duplicates_inv l).pair

/-- C4: deduplication is idempotent — rerunning `remove_duplicates` on
its own output is the identity. -/
theorem remove_duplicates_idempotent (l : List Article) :
    remove_duplicates (remove_duplicates l) = remove_duplicates l := by
  have hfix := dedup_foldl_frozen (remove_duplicates l) []
    (by simpa using remove_duplicates_headlines_nodup l)
    (by simpa using remove_duplicates_urls_nodup l)
    (by simpa using remove_duplicates_pairwise l)
  simpa using hfix

/-- C3 (amended): for any two positions of the input whose normalised
headlines overlap by more than `0.7`, at most one of the two articles
appears in the deduplicated output. -/
theorem dedup_pair_at_most_one (l : List Article) (i j : Fin l.length)
    (hov : mkRat 7 10 < overlapRatio (normHeadline (l.get i)) (normHeadline (l.get j))) :
    ¬ ∃ p q : Fin (remove_duplicates l).length, p ≠ q ∧
      (remove_duplicates l).get p = l.get i ∧ (remove_duplicates l).get q = l.get j := by
  rintro ⟨p, q, hpq, hp, hq⟩
  have hpw := remove_duplicates_pairwise l
  rw [List.pairwise_iff_get] at hpw
  rcases lt_or_gt_of_ne hpq with hlt | hgt
  · have hno := hpw p q hlt
    unfold NoFuzz at hno
    rw [hp, hq] at hno
    exact absurd hov (not_lt.mpr hno)
  · have hno := hpw q p hgt
    unfold NoFuzz at hno
    rw [hq, hp, overlapRatio_comm] at hno
    exact absurd hov (not_lt.mpr hno)

/-- Witness for the previous theorem on a concrete overlapping pair. -/
theorem dedup_pair_at_most_one_witness :
    (mkRat 7 10 < overlapRatio
      (normHeadline ({ headline := "a b c" } : Article))
      (normHeadline ({ headline := "a b c d" } : Article))) ∧
    ¬ ∃ p q : Fin (remove_duplicates
        [{ headline := "a b c" }, { headline := "a b c d" }]).length, p ≠ q ∧
      (remove_duplicates [{ headline := "a b c" }, { headline := "a b c d" }]).get p
        = [({ headline := "a b c" } : Article), { headline := "a b c d" }].get ⟨0, by decide⟩ ∧
      (remove_duplicates [{ headline := "a b c" }, { headline := "a b c d" }]).get q
        = [({ headline := "a b c" } : Article), { headline := "a b c d" }].get ⟨1, by decide⟩ :=
  ⟨by decide, dedup_pair_at_most_one
    [{ headline := "a b c" }, { headline := "a b c d" }]
    ⟨0, by decide⟩ ⟨1, by decide⟩ (by decide)⟩

/-- The deduplication threshold constant is exactly `0.7`. -/
theorem mkRat_seven_ten_eq : (mkRat 7 10 : ℚ) = 7/10 := by
  norm_num [Rat.mkRat_eq_div]

/-- The grouping threshold constant is exactly `0.6`. -/
theorem mkRat_three_five_eq : (mkRat 3 5 : ℚ) = 3/5 := by
  norm_num [Rat.mkRat_eq_div]

/-- `overlapRatio` is the plain ratio of the claim:
`card(words₁ ∩ words₂) / max(card words₁, card words₂)`. -/
theorem overlapRatio_eq_div (h₁ h₂ : String) :
    overlapRatio h₁ h₂ = ((wordFinset h₁ ∩ wordFinset h₂).card : ℚ) /
      (max (wordFinset h₁).card (wordFinset h₂).card : ℚ) := by
  unfold overlapRatio
  rw [Rat.divInt_eq_div]
  push_cast
  rfl

/-- C3 counterexample: with headlines `"a b c"`, `"a b c d"`, `"b c d"`
the second and third overlap by `3/4 > 0.7`, yet the article that
survives deduplication is the *third* — the later of that pair — because
the second was already discarded against the first. -/
theorem dedup_survivor_not_first :
    remove_duplicates
        [{ headline := "a b c" }, { headline := "a b c d" }, { headline := "b c d" }]
      = [{ headline := "a b c" }, { headline := "b c d" }] ∧
    mkRat 7 10 < overlapRatio
      (normHeadline ({ headline := "a b c d" } : Article))
      (normHeadline ({ headline := "b c d" } : Article)) := by
  constructor
  · decide
  · decide

/-- C10 counterexample: of two articles with empty headlines, the
*first* (`url := "u"`) is rejected by the URL check against an earlier
unrelated article, and the *second* (`url := "v"`) is kept — so the kept
empty-headline article is not the first one, and the first one is not
rejected at the headline stage. -/
theorem dedup_empty_headline_url_rejection :
    remove_duplicates
        [{ headline := "xy", url := "u" }, { headline := "", url := "u" },
         { headline := "", url := "v" }]
      = [{ headline := "xy", url := "u" }, { headline := "", url := "v" }] := by
  decide

/-- C10 (amended): at most one article whose normalised headline is
empty ever appears in the deduplicated output. -/
theorem dedup_at_most_one_empty_headline (l : List Article) :
    ((remove_duplicates l).filter (fun a => normHeadline a == "")).length ≤ 1 := by
  have hnd := remove_duplicates_headlines_nodup l
  generalize hout : remove_duplicates l = out at hnd ⊢
  clear hout
  induction out with
  | nil => simp
  | cons a t ih =>
    rw [List.map_cons, List.nodup_cons] at hnd
    by_cases hc : normHeadline a = ""
    · rw [List.filter_cons_of_pos (by simpa using hc)]
      have hrest : t.filter (fun x => normHeadline x == "") = [] := by
        rw [List.filter_eq_nil_iff]
        intro b hb hbc
        apply hnd.1
        rw [hc, ← show normHeadline b = "" by simpa using hbc]
        exact List.mem_map_of_mem normHeadline hb
      rw [hrest]
      simp
    · rw [List.filter_cons_of_neg (by simpa using hc)]
      exact ih hnd.2

/-! ## The two similarity measures (C2) -/

/-- The similarity measure applied by `remove_duplicates` to a pair of
raw headlines: word-set overlap of the lower-cased, stripped headlines. -/
def dedupSimilarity (h₁ h₂ : String) : ℚ :=
  overlapRatio (pyStrip (pyLower h₁)) (pyStrip (pyLower h₂))

/-- The similarity measure applied by `find_similar_articles` to a pair
of raw headlines: `SequenceMatcher` ratio of the lower-cased headlines. -/
def checkerSimilarity (h₁ h₂ : String) : ℚ :=
  seqRatio (pyLower h₁) (pyLower h₂)

/-- C2 counterexample: the two similarity measures disagree on the
headline pair `("ab", "ba")`. -/
theorem similarity_measures_differ_at :
    dedupSimilarity "ab" "ba" ≠ checkerSimilarity "ab" "ba" := by decide

/-- C2 (amended): the Deduplicator and the Fact Consistency Checker use
*different* similarity measures — word-set overlap gives `0` on
`("ab", "ba")` where the `SequenceMatcher` ratio gives `1/2`, so the two
functions are not equal. -/
theorem similarity_measures_not_equal :
    dedupSimilarity "ab" "ba" = 0 ∧ checkerSimilarity "ab" "ba" = mkRat 1 2 ∧
      dedupSimilarity ≠ checkerSimilarity := by
  refine ⟨by decide, by decide, fun heq => ?_⟩
  exact absurd (congrFun (congrFun heq "ab") "ba") (by decide)

/-! ## `categorize_article_fallback` (C6) -/

/-- The `CATEGORIES` keyword table, in dict insertion order. -/
def CATEGORIES : List (String × List String) :=
  [("Technology",
    ["microsoft", "apple", "google", "amazon", "meta", "facebook", "tesla",
     "nvidia", "amd", "intel", "netflix", "spotify", "uber", "lyft",
     "airbnb", "zoom", "slack", "salesforce", "adobe", "technology",
     "tech", "software", "hardware", "AI", "artificial intelligence",
     "machine learning", "blockchain", "crypto", "bitcoin", "ethereum",
     "algorithm", "data", "cloud", "internet", "social media",
     "smartphone", "computer", "laptop", "robot", "automation", "startup",
     "venture capital", "unicorn", "coding", "programming", "developer",
     "cybersecurity", "digital transformation", "fintech", "edtech",
     "healthtech", "biotech"]),
   ("Health",
    ["health", "medicine", "medical", "hospital", "doctor", "patient",
     "treatment", "drug", "pharmaceutical", "fda", "clinical trial",
     "surgery", "diagnosis", "cancer", "virus", "infection", "therapy",
     "medication", "healthcare", "insurance", "mental health",
     "psychology", "nutrition", "fitness", "exercise", "diet", "wellness",
     "pfizer", "moderna", "johnson & johnson", "j&j", "astrazeneca",
     "novartis", "roche", "merck", "gilead", "biogen", "amgen",
     "regeneron", "cdc", "who", "genetics"]),
   ("Government/Policy",
    ["government", "white house", "congress", "senate", "house",
     "president", "administration", "federal", "state", "supreme court",
     "justice", "attorney general", "department", "agency", "fbi", "cia",
     "nsa", "department of defense", "dod", "department of state", "dos",
     "policy", "law", "bill", "regulation", "legislation", "vote",
     "election", "campaign", "democrat", "republican", "politician",
     "budget", "tax", "immigration", "foreign policy", "diplomacy",
     "executive order", "veto", "impeachment", "confirmation", "nomination"]),
   ("Economy",
    ["economy", "economic", "gdp", "inflation", "jobs", "employment",
     "recession", "growth", "market", "consumer", "spending", "retail",
     "manufacturing", "trade", "import", "export", "business", "corporate",
     "industry", "sector", "productivity", "wages", "salary", "income",
     "poverty", "wealth", "middle class", "economic growth",
     "economic recovery", "economic stimulus"]),
   ("Finance",
    ["finance", "stock", "market", "earnings", "analyst", "M&A", "sec",
     "ipo", "merger", "acquisition", "investment", "trading", "portfolio",
     "fund", "bank", "banking", "credit", "loan", "mortgage",
     "interest rate", "federal reserve", "fed", "dow", "nasdaq", "s&p",
     "wall street", "hedge fund", "private equity", "dividend", "revenue",
     "profit", "loss", "quarterly", "annual", "shareholder", "board",
     "ceo", "cfo", "executive", "jpmorgan", "bank of america",
     "wells fargo", "citigroup", "goldman sachs", "morgan stanley",
     "blackrock", "vanguard", "fidelity", "charles schwab"]),
   ("World",
    ["world", "global", "international", "foreign", "diplomacy", "embassy",
     "ambassador", "united nations", "nato", "europe", "asia", "africa",
     "latin america", "middle east", "russia", "china", "japan", "germany",
     "france", "uk", "canada", "mexico", "thailand", "cambodia", "iran",
     "iranian", "israel", "palestine", "ukraine", "india", "brazil",
     "australia", "south korea", "north korea", "turkey", "saudi arabia",
     "egypt", "nigeria", "south africa", "kenya", "ethiopia", "morocco",
     "algeria", "tunisia", "libya", "sudan", "war", "conflict", "peace",
     "treaty", "alliance", "sanction", "embargo", "terrorism", "refugee",
     "migration", "border", "immigration", "diplomatic",
     "foreign minister", "president", "prime minister", "king", "queen",
     "royal", "monarchy", "republic", "democracy", "election", "vote",
     "protest", "demonstration", "riot", "civil war", "coup", "revolution",
     "independence", "sovereignty", "territory", "border dispute",
     "trade war", "economic sanctions", "humanitarian", "aid", "disaster",
     "earthquake", "tsunami", "hurricane", "flood", "drought", "famine",
     "pandemic", "epidemic", "outbreak"]),
   ("Space",
    ["space", "nasa", "spacex", "blue origin", "virgin galactic", "boeing",
     "lockheed martin", "northrop grumman", "astronaut", "satellite",
     "rocket", "spacecraft", "space station", "iss",
     "international space station", "mars", "moon", "planet", "galaxy",
     "universe", "orbit", "launch", "telescope", "hubble", "james webb",
     "rover", "probe", "mission", "space exploration", "cosmos", "stellar",
     "interstellar", "solar system", "asteroid", "meteor", "comet",
     "black hole", "nebula", "star", "constellation", "astronomy",
     "astrophysics", "cosmology", "gravity", "zero gravity",
     "microgravity", "space suit", "spacewalk", "space tourism",
     "space mining", "mars colony", "lunar base", "space debris",
     "space junk", "space traffic", "space law"])]

/-- Second-stage Government/Policy pattern list of `categorize_article_fallback`. -/
def govPatterns : List String :=
  ["white house", "congress", "senate", "house of representatives",
   "president", "administration", "federal government", "executive order",
   "supreme court"]

/-- Second-stage Technology pattern list of `categorize_article_fallback`. -/
def techPatterns : List String :=
  ["microsoft", "apple", "google", "amazon", "tesla", "nvidia",
   "artificial intelligence", "AI", "software", "tech company"]

/-- Second-stage World pattern list of `categorize_article_fallback`. -/
def worldPatterns : List String :=
  ["thailand", "cambodia", "iran", "iranian", "prince", "defector",
   "refugee", "migration", "border", "diplomatic", "foreign minister",
   "embassy", "ambassador"]

/-- Second-stage Space pattern list of `categorize_article_fallback`. -/
def spacePatterns : List String :=
  ["nasa", "spacex", "astronaut", "satellite", "rocket", "spacecraft",
   "mars", "moon", "planet", "galaxy", "universe", "orbit", "launch",
   "space station", "iss"]

/-- Second-stage Finance pattern list of `categorize_article_fallback`. -/
def financePatterns : List String :=
  ["stock market", "earnings", "trading", "wall street", "federal reserve",
   "interest rate", "dow jones", "nasdaq", "s&p 500"]

/-- Second-stage Health pattern list of `categorize_article_fallback`. -/
def healthPatterns : List String :=
  ["medical", "hospital", "doctor", "patient", "treatment", "drug",
   "pharmaceutical", "fda", "clinical trial", "surgery", "diagnosis",
   "cancer", "virus", "infection", "therapy", "medication", "cdc", "who",
   "genetics"]

/-- Second-stage Economy pattern list of `categorize_article_fallback`. -/
def economyPatterns : List String :=
  ["gdp", "inflation", "jobs", "employment", "recession",
   "economic growth", "economic recovery", "economic stimulus",
   "consumer spending", "retail sales", "manufacturing"]

/-- Substring hit of a keyword list in a (lower-cased) text. -/
def anyKeywordIn (patterns : List String) (text : String) : Bool :=
  patterns.any (fun p => containsSub text.data p.data)

/-- The 8 category labels the fallback can produce. -/
def allCategories : List String :=
  ["Technology", "Health", "Government/Policy", "Economy", "Finance",
   "World", "Space", "Miscellaneous"]

/-- `categorize_article_fallback`: keyword categorisation over the
lower-cased `headline + ' ' + description`.  The first `CATEGORIES`
entry with a (lower-cased) keyword hit wins; otherwise seven hard-coded
pattern lists are tried in a fixed order; otherwise `Miscellaneous`. -/
def categorize_article_fallback (article : Article) : String :=
  let text := pyLower (article.headline ++ " " ++ article.description)
  match CATEGORIES.find? (fun ck =>
      ck.2.any (fun kw => containsSub text.data (pyLower kw).data)) with
  | some ck => ck.1
  | none =>
    if anyKeywordIn govPatterns text then "Government/Policy"
    else if anyKeywordIn techPatterns text then "Technology"
    else if anyKeywordIn worldPatterns text then "World"
    else if anyKeywordIn spacePatterns text then "Space"
    else if anyKeywordIn financePatterns text then "Finance"
    else if anyKeywordIn healthPatterns text then "Health"
    else if anyKeywordIn economyPatterns text then "Economy"
    else "Miscellaneous"

/-- C6 counterexample: for the headline `"prince"` no keyword of any
`CATEGORIES` entry matches, yet the fallback returns `World` (from its
second-stage pattern lists), not `Miscellaneous`. -/
theorem categorize_fallback_beyond_keywords :
    categorize_article_fallback { headline := "prince" } = "World" ∧
    CATEGORIES.all (fun ck => ck.2.all (fun kw =>
      !containsSub (pyLower "prince ").data (pyLower kw).data)) = true ∧
    ("World" : String) ≠ "Miscellaneous" :=
  ⟨by decide, by decide, by decide⟩

/-- C6 (amended): the fallback always returns one of the eight
categories, and returns `Miscellaneous` when neither the `CATEGORIES`
keywords nor the seven second-stage pattern lists match. -/
theorem categorize_fallback_total (a : Article) :
    categorize_article_fallback a ∈ allCategories ∧
    ((CATEGORIES.any (fun ck => ck.2.any (fun kw =>
          containsSub (pyLower (a.headline ++ " " ++ a.description)).data
            (pyLower kw).data)) = false ∧
      [govPatterns, techPatterns, worldPatterns, spacePatterns, financePatterns,
       healthPatterns, economyPatterns].all (fun ps =>
          !anyKeywordIn ps (pyLower (a.headline ++ " " ++ a.description))) = true) →
      categorize_article_fallback a = "Miscellaneous") := by
  constructor
  · rcases hf : CATEGORIES.find? (fun ck =>
        ck.2.any (fun kw => containsSub (pyLower (a.headline ++ " " ++ a.description)).data
          (pyLower kw).data)) with _ | ck
    · simp only [categorize_article_fallback, hf]
      split_ifs <;> decide
    · have hmem := List.mem_of_find?_eq_some hf
      simp only [categorize_article_fallback, hf]
      simp only [CATEGORIES, List.mem_cons, List.not_mem_nil, or_false] at hmem
      rcases hmem with rfl | rfl | rfl | rfl | rfl | rfl | rfl <;> decide
  · rintro ⟨h1, h2⟩
    have hf : CATEGORIES.find? (fun ck =>
        ck.2.any (fun kw => containsSub (pyLower (a.headline ++ " " ++ a.description)).data
          (pyLower kw).data)) = none := by
      rw [List.find?_eq_none]
      intro ck hck
      rw [List.any_eq_false] at h1
      exact h1 ck hck
    rw [List.all_eq_true] at h2
    have hgov := h2 govPatterns (by simp)
    have htech := h2 techPatterns (by simp)
    have hworld := h2 worldPatterns (by simp)
    have hspace := h2 spacePatterns (by simp)
    have hfin := h2 financePatterns (by simp)
    have hhealth := h2 healthPatterns (by simp)
    have heco := h2 economyPatterns (by simp)
    simp only [Bool.not_eq_eq_eq_not, Bool.not_true] at hgov htech hworld hspace hfin hhealth heco
    simp only [categorize_article_fallback, hf, hgov, htech, hworld, hspace, hfin,
      hhealth, heco, Bool.false_eq_true, if_false]

/-- Witness: the single-word headline `"zzzz"` matches nothing and is
categorised `Miscellaneous`. -/
theorem categorize_fallback_total_witness :
    categorize_article_fallback { headline := "zzzz" } ∈ allCategories ∧
    categorize_article_fallback { headline := "zzzz" } = "Miscellaneous" :=
  ⟨(categorize_fallback_total { headline := "zzzz" }).1,
   (categorize_fallback_total { headline := "zzzz" }).2 ⟨by decide, by decide⟩⟩

/-! ## `calculate_article_priority` (C7)

The source reads the wall clock and parses `published_at` with
`datetime`; that external input is modelled by the explicit parameter
`hoursOld` (`none` when the field is missing or unparsable, in which
case the source adds no recency bonus). -/

/-- `trusted_sources` of `calculate_article_priority`. -/
def trusted_sources : List String :=
  ["reuters", "associated press", "ap", "bloomberg", "bbc",
   "wall street journal", "wsj", "financial times", "ft", "the guardian",
   "pbs newshour", "politico", "al jazeera", "the hill", "axios"]

/-- `breaking_keywords` (the source lists `"deadline"` twice). -/
def breaking_keywords : List String :=
  ["breaking", "urgent", "just in", "developing", "live", "update",
   "alert", "crisis", "emergency", "deadline", "deadline", "immediate",
   "critical"]

/-- `high_impact_keywords`. -/
def high_impact_keywords : List String :=
  ["president", "congress", "senate", "house", "white house",
   "administration", "federal reserve", "fed", "sec", "fda",
   "supreme court", "election", "apple", "microsoft", "google", "amazon",
   "tesla", "nvidia", "meta", "jpmorgan", "goldman sachs",
   "bank of america", "wells fargo", "pfizer", "moderna",
   "johnson & johnson", "astrazeneca"]

/-- `market_keywords`. -/
def market_keywords : List String :=
  ["earnings", "quarterly results", "stock market", "dow jones", "nasdaq",
   "s&p", "merger", "acquisition", "ipo", "bankruptcy", "layoffs",
   "hiring", "interest rate", "inflation", "gdp", "jobs report",
   "unemployment"]

/-- `tech_keywords`. -/
def tech_keywords : List String :=
  ["artificial intelligence", "ai", "machine learning", "blockchain",
   "crypto", "cybersecurity", "data breach", "hack", "software", "startup",
   "unicorn", "spacex", "nasa", "satellite", "rocket", "space exploration"]

/-- `health_keywords`. -/
def health_keywords : List String :=
  ["covid", "pandemic", "vaccine", "fda approval", "clinical trial",
   "cancer", "treatment", "hospital", "medical", "healthcare", "insurance",
   "genetics", "medicine", "cdc", "who"]

/-- `world_keywords`. -/
def world_keywords : List String :=
  ["russia", "ukraine", "china", "iran", "north korea", "israel",
   "palestine", "nato", "united nations", "trade war", "sanctions",
   "embargo", "refugee", "migration", "border", "diplomatic", "embassy"]

/-- `keyword in headline or keyword in description` (both already
lower-cased by the caller). -/
def kwHit (headline description kw : String) : Bool :=
  containsSub headline.data kw.data || containsSub description.data kw.data

/-- Trusted-source loop: `+10` once, then `break`. -/
def sourceBonus (source : String) : ℚ :=
  if trusted_sources.any (fun t => containsSub source.data t.data) then 10 else 0

/-- Breaking-news loop: `+8` once, then `break`. -/
def breakingBonus (headline description : String) : ℚ :=
  if breaking_keywords.any (kwHit headline description) then 8 else 0

/-- The per-keyword loops without `break`: `score += c` per hit. -/
def keywordBonus (c : ℚ) (kws : List String) (headline description : String) : ℚ :=
  kws.foldl (fun s kw => if kwHit headline description kw then s + c else s) 0

/-- Recency bonus from the article's age in hours. -/
def recencyBonus (hoursOld : Option ℚ) : ℚ :=
  match hoursOld with
  | none => 0
  | some h => if h < 6 then 2 else if h < 12 then 1 else 0

/-- Content-length bonus. -/
def contentLengthBonus (content : String) : ℚ :=
  if 500 < content.length then 1
  else if 200 < content.length then mkRat 1 2 else 0

/-- `calculate_article_priority`: the additive score. -/
def calculate_article_priority (article : Article) (hoursOld : Option ℚ) : ℚ :=
  sourceBonus (pyLower article.source)
    + breakingBonus (pyLower article.headline) (pyLower article.description)
    + keywordBonus 6 high_impact_keywords (pyLower article.headline) (pyLower article.description)
    + keywordBonus 5 market_keywords (pyLower article.headline) (pyLower article.description)
    + keywordBonus 4 tech_keywords (pyLower article.headline) (pyLower article.description)
    + keywordBonus 4 health_keywords (pyLower article.headline) (pyLower article.description)
    + keywordBonus 3 world_keywords (pyLower article.headline) (pyLower article.description)
    + recencyBonus hoursOld
    + contentLengthBonus article.content

theorem pyLower_append (s t : String) : pyLower (s ++ t) = pyLower s ++ pyLower t := by
  cases s with
  | mk ds =>
  cases t with
  | mk dt =>
  show String.mk ((ds ++ dt).map Char.toLower)
    = String.mk (ds.map Char.toLower) ++ String.mk (dt.map Char.toLower)
  rw [List.map_append]
  rfl

theorem kwHit_append_right {headline description extra kw : String}
    (h : kwHit headline description kw = true) :
    kwHit headline (description ++ extra) kw = true := by
  unfold kwHit at h ⊢
  rw [Bool.or_eq_true] at h ⊢
  rcases h with h | h
  · exact Or.inl h
  · right
    have hd : (description ++ extra).data = description.data ++ extra.data := rfl
    rw [hd]
    exact containsSub_append_right _ _ _ h

theorem countP_le_countP {α : Type} (p q : α → Bool) (l : List α)
    (h : ∀ x ∈ l, p x = true → q x = true) : l.countP p ≤ l.countP q := by
  induction l with
  | nil => simp
  | cons a t ih =>
    rw [List.countP_cons, List.countP_cons]
    have ht := ih (fun x hx => h x (List.mem_cons_of_mem a hx))
    by_cases hp : p a = true
    · rw [hp, h a (List.mem_cons_self a t) hp]
      omega
    · rw [Bool.eq_false_iff.mpr hp]
      by_cases hq : q a = true <;> simp [hq] <;> omega

theorem countP_lt_countP {α : Type} (p q : α → Bool) (l : List α) (x : α)
    (hmono : ∀ y ∈ l, p y = true → q y = true)
    (hx : x ∈ l) (hqx : q x = true) (hpx : p x = false) :
    l.countP p < l.countP q := by
  induction l with
  | nil => cases hx
  | cons a t ih =>
    rw [List.countP_cons, List.countP_cons]
    have hmono' : ∀ y ∈ t, p y = true → q y = true :=
      fun y hy => hmono y (List.mem_cons_of_mem a hy)
    have hle := countP_le_countP p q t hmono'
    rcases List.mem_cons.mp hx with rfl | hmem
    · rw [hqx, hpx]
      simp only [Bool.false_eq_true, if_true, if_false]
      omega
    · have hlt := ih hmono' hmem
      by_cases hp : p a = true
      · rw [hp, hmono a (List.mem_cons_self a t) hp]
        omega
      · rw [Bool.eq_false_iff.mpr hp]
        by_cases hq : q a = true <;> simp [hq] <;> omega

theorem keywordBonus_eq_countP (c : ℚ) (kws : List String) (headline description : String) :
    keywordBonus c kws headline description
      = c * (kws.countP (kwHit headline description)) := by
  unfold keywordBonus
  suffices hgen : ∀ init : ℚ,
      kws.foldl (fun s kw => if kwHit headline description kw then s + c else s) init
        = init + c * (kws.countP (kwHit headline description)) by
    rw [hgen 0, zero_add]
  induction kws with
  | nil => intro init; simp
  | cons k t ih =>
    intro init
    rw [List.foldl_cons, List.countP_cons]
    by_cases hk : kwHit headline description k = true
    · rw [if_pos hk, ih, if_pos hk]
      push_cast
      ring
    · rw [if_neg hk, ih, if_neg hk]
      push_cast
      ring

theorem keywordBonus_mono (c : ℚ) (hc : 0 ≤ c) (kws : List String)
    (headline description extra : String) :
    keywordBonus c kws headline description
      ≤ keywordBonus c kws headline (description ++ extra) := by
  rw [keywordBonus_eq_countP, keywordBonus_eq_countP]
  have := countP_le_countP (kwHit headline description)
    (kwHit headline (description ++ extra)) kws
    (fun x _ hx => kwHit_append_right hx)
  exact mul_le_mul_of_nonneg_left (by exact_mod_cast this) hc

theorem breakingBonus_mono (headline description extra : String) :
    breakingBonus headline description ≤ breakingBonus headline (description ++ extra) := by
  unfold breakingBonus
  by_cases h : breaking_keywords.any (kwHit headline description) = true
  · rw [if_pos h]
    have h2 : breaking_keywords.any (kwHit headline (description ++ extra)) = true := by
      rw [List.any_eq_true] at h ⊢
      obtain ⟨k, hk, hh⟩ := h
      exact ⟨k, hk, kwHit_append_right hh⟩
    rw [if_pos h2]
  · rw [if_neg h]
    by_cases h2 : breaking_keywords.any (kwHit headline (description ++ extra)) = true
    · rw [if_pos h2]; norm_num
    · rw [if_neg h2]

theorem high_impact_lower_fixed : ∀ kw ∈ high_impact_keywords, pyLower kw = kw := by
  decide

/-- C7: appending an absent high-impact keyword to the description
strictly increases the priority score; the high-impact loop contributes
`+6` per matching keyword; the breaking-news bonus is `0` or `8`,
never more. -/
theorem priority_monotone_high_impact (a : Article) (hoursOld : Option ℚ) (kw : String)
    (hkw : kw ∈ high_impact_keywords)
    (hh : containsSub (pyLower a.headline).data kw.data = false)
    (hd : containsSub (pyLower a.description).data kw.data = false) :
    calculate_article_priority a hoursOld
        < calculate_article_priority { a with description := a.description ++ kw } hoursOld ∧
      (∀ h d : String, keywordBonus 6 high_impact_keywords h d
          = 6 * (high_impact_keywords.countP (kwHit h d))) ∧
      (∀ h d : String, breakingBonus h d = 0 ∨ breakingBonus h d = 8) := by
  refine ⟨?_, fun h d => keywordBonus_eq_countP 6 _ h d, fun h d => ?_⟩
  · have hlow : pyLower kw = kw := high_impact_lower_fixed kw hkw
    have hD' : pyLower (a.description ++ kw) = pyLower a.description ++ kw := by
      rw [pyLower_append, hlow]
    unfold calculate_article_priority
    dsimp only
    rw [hD']
    have hB := breakingBonus_mono (pyLower a.headline) (pyLower a.description) kw
    have h5 := keywordBonus_mono 5 (by norm_num) market_keywords
      (pyLower a.headline) (pyLower a.description) kw
    have h4t := keywordBonus_mono 4 (by norm_num) tech_keywords
      (pyLower a.headline) (pyLower a.description) kw
    have h4h := keywordBonus_mono 4 (by norm_num) health_keywords
      (pyLower a.headline) (pyLower a.description) kw
    have h3 := keywordBonus_mono 3 (by norm_num) world_keywords
      (pyLower a.headline) (pyLower a.description) kw
    have h6 : keywordBonus 6 high_impact_keywords (pyLower a.headline) (pyLower a.description)
        < keywordBonus 6 high_impact_keywords (pyLower a.headline)
            (pyLower a.description ++ kw) := by
      rw [keywordBonus_eq_countP, keywordBonus_eq_countP]
      have hcnt : high_impact_keywords.countP
            (kwHit (pyLower a.headline) (pyLower a.description))
          < high_impact_keywords.countP
            (kwHit (pyLower a.headline) (pyLower a.description ++ kw)) := by
        apply countP_lt_countP _ _ _ kw (fun y _ hy => kwHit_append_right hy) hkw
        · unfold kwHit
          rw [Bool.or_eq_true]
          right
          have hdata : (pyLower a.description ++ kw).data
              = (pyLower a.description).data ++ kw.data := rfl
          rw [hdata]
          exact containsSub_suffix _ _ (List.suffix_append _ _)
        · unfold kwHit
          rw [hh, hd]
          rfl
      have : ((high_impact_keywords.countP
          (kwHit (pyLower a.headline) (pyLower a.description)) : ℚ))
          < ((high_impact_keywords.countP
          (kwHit (pyLower a.headline) (pyLower a.description ++ kw)) : ℚ)) := by
        exact_mod_cast hcnt
      nlinarith [this]
    linarith [hB, h5, h4t, h4h, h3, h6]
  · unfold breakingBonus
    split
    · right; rfl
    · left; rfl

/-- Witness: appending the absent keyword `"apple"` to a concrete
article's description strictly raises its score. -/
theorem priority_monotone_high_impact_witness :
    calculate_article_priority { headline := "hello", description := "there" } none
      < calculate_article_priority { headline := "hello", description := "thereapple" } none :=
  (priority_monotone_high_impact { headline := "hello", description := "there" }
    none "apple" (by decide) (by decide) (by decide)).1

/-- C8: a `BillInfo` is returned only when a bill number or a bill name
was extracted, and never when the legislative-keyword gate fails. -/
theorem extract_bill_info_requires_identifier_and_gate (t : String) :
    (∀ bi : BillInfo, extract_bill_info t = some bi →
      (bi.bill_number.isSome || bi.bill_name.isSome) = true) ∧
    (BILL_KEYWORDS.any (fun kw => containsSub (pyLower t).data kw.data) = false →
      extract_bill_info t = none) := by
  constructor
  · intro bi hbi
    unfold extract_bill_info at hbi
    by_cases ht : t = ""
    · rw [if_pos ht] at hbi
      cases hbi
    · rw [if_neg ht] at hbi
      dsimp only at hbi
      by_cases hg : BILL_KEYWORDS.any
          (fun kw => containsSub (pyLower t).data kw.data) = true
      · rw [hg] at hbi
        simp only [Bool.not_true, Bool.false_eq_true, if_false] at hbi
        by_cases hn : ((firstPatternMatch
              (billNumberPatterns.map (fun g => (RE.eps, g, RE.eps))) t).isSome
            || (firstPatternMatch billNamePatterns t).isSome) = true
        · rw [if_pos hn] at hbi
          cases hbi
          exact hn
        · rw [if_neg hn] at hbi
          cases hbi
      · rw [Bool.eq_false_iff.mpr hg] at hbi
        simp only [Bool.not_false, if_true] at hbi
        cases hbi
  · intro hg
    unfold extract_bill_info
    by_cases ht : t = ""
    · rw [if_pos ht]
    · rw [if_neg ht]
      dsimp only
      rw [hg]
      simp only [Bool.not_false, if_true]

/-- The `BillInfo` extracted from `"Senate approved S. 10"`. -/
def senateBillInfo : BillInfo :=
  { bill_name := none, bill_number := some "S. 10", branch_passed := some "senate",
    explanation := some
      "Bill details and funding information available from official sources.",
    sectors_affected := [] }

theorem extract_bill_info_requires_identifier_and_gate_witness :
    extract_bill_info "Microsoft releases new earnings report" = none ∧
    (senateBillInfo.bill_number.isSome || senateBillInfo.bill_name.isSome) = true :=
  ⟨(extract_bill_info_requires_identifier_and_gate
      "Microsoft releases new earnings report").2 (by decide),
   (extract_bill_info_requires_identifier_and_gate "Senate approved S. 10").1
      senateBillInfo (by decide)⟩

/-- The end-to-end example input of the specification. -/
def c1text : String :=
  "H.R. 1234, the \"Clean Energy Act,\" was passed by the Senate. It allocates funding for solar and EV infrastructure."

set_option maxRecDepth 100000 in
/-- C1 counterexample: on the example text the extractor returns *no*
branch (`"passed by the Senate"` matches none of the senate keyword
phrases) and a bill name with the trailing comma captured inside the
quotes — not `branch_passed = senate` and `bill_name = "Clean Energy
Act"` as the claim states. -/
theorem bill_example_branch_and_name_differ :
    (extract_bill_info c1text).map (fun bi => bi.branch_passed) = some none ∧
    (extract_bill_info c1text).map (fun bi => bi.bill_name)
      = some (some "Clean Energy Act,") ∧
    (extract_bill_info c1text).map (fun bi => bi.branch_passed)
      ≠ some (some "senate") ∧
    (extract_bill_info c1text).map (fun bi => bi.bill_name)
      ≠ some (some "Clean Energy Act") := by
  refine ⟨by decide, by decide, by decide, by decide⟩

set_option maxRecDepth 100000 in
/-- C1 (amended): the example text yields
`bill_number = "H.R. 1234"`, `bill_name = "Clean Energy Act,"`
(trailing comma included), *no* branch, sectors `Renewable Energy` and
`Infrastructure`, an explanation starting with the expected sentence,
and companies drawn from the two affected sectors' tables. -/
theorem bill_example_extraction :
    extract_bill_info c1text = some
      { bill_name := some "Clean Energy Act,", bill_number := some "H.R. 1234",
        branch_passed := none,
        explanation := some "It allocates funding for solar and EV infrastructure...",
        sectors_affected := ["Renewable Energy", "Infrastructure"] } ∧
    (get_affected_companies ["Renewable Energy", "Infrastructure"] 10).all
      (fun c => COMPANIES_BY_SECTOR.any (fun cs =>
        (cs.1 == "Renewable Energy" || cs.1 == "Infrastructure") && cs.2.contains c))
      = true ∧
    (get_affected_companies ["Renewable Energy", "Infrastructure"] 10).length ≤ 10 := by
  refine ⟨by decide, by decide, by decide⟩

/-- The fact-checking failing input: a `DataFrame` whose index is the
permutation `[2, 1, 0]` of its positions — exactly what
`collect_all_news` produces, since `sort_articles_by_priority` sorts
with `sort_values` and never resets the index. -/
def factCheckBugInput : List FRow :=
  [{ label := 2, headline := "alpha beta", content := "" },
   { label := 1, headline := "alpha beta", content := "in 2021" },
   { label := 0, headline := "zzzz qqqq", content := "in 2022" }]

set_option maxRecDepth 100000 in
/-- C5 failing input: the two `"alpha beta"` rows (labels 2 and 1) form
the only similarity group, but `check_article_consistency` reads and
writes the group through `df.iloc[label]`; it therefore extracts the
facts of rows at *positions* 2 and 1 (`"zzzz qqqq" / in 2022` and
`"alpha beta" / in 2021`), flags their conflicting dates, and marks the
rows at positions 2 and 1 — leaving the group member at position 0
(label 2) `Fact-checked` and marking the non-member `"zzzz qqqq"`
`Unverified`.  Flagging is *not* symmetric within the group. -/
theorem fact_check_flags_wrong_rows :
    find_similar_articles factCheckBugInput = [[2, 1]] ∧
    check_article_consistency factCheckBugInput =
      [{ label := 2, headline := "alpha beta", content := "",
         fact_check_status := "🔍 Fact-checked" },
       { label := 1, headline := "alpha beta", content := "in 2021",
         fact_check_status := "⚠️ Unverified" },
       { label := 0, headline := "zzzz qqqq", content := "in 2022",
         fact_check_status := "⚠️ Unverified" }] := by
  refine ⟨by decide, by decide⟩

/-- The bill-watcher failing input: a two-row `DataFrame` with the
permuted index `[1, 0]`. -/
def billBugInput : List BRow :=
  [{ label := 1, headline := "Congress passed H.R. 1 funding roads",
     category := "Government/Policy" },
   { label := 0, headline := "Quiet notes", category := "Technology" }]

set_option maxRecDepth 100000 in
/-- C9 failing input: the bill is found in the `Government/Policy` row
(label 1, position 0), but `analyze_bill_impact` sets the marker through
`df.iloc[1]` — the *position*-1 row — so the `Technology` article gets
`bill_impact = '📋 Bill Impact'` while the Government/Policy article
stays unmarked. -/
theorem bill_marker_set_on_wrong_row :
    (analyze_bill_impact billBugInput).1 =
      [{ label := 1, headline := "Congress passed H.R. 1 funding roads",
         category := "Government/Policy", bill_impact := none },
       { label := 0, headline := "Quiet notes", category := "Technology",
         bill_impact := some "📋 Bill Impact" }] ∧
    (analyze_bill_impact billBugInput).2.map (fun i => i.article_index) = [1] := by
  refine ⟨by decide, by decide⟩
